import Mathlib

/-!
Verification of the class-registration and ownership-capability contract
in gdnative-core (src/gdnative-core/src/export/class.rs).

The file shallowly embeds the data model and operations of that module:
the access-capability tags, the typed foreign reference `TRef`, the sealed
`OwnerArg` conversion contract, and the `NativeClass` trait with its
default `init`, `register_properties`, `new_instance` and `emplace`
bodies. Collaborators that live outside the embedded file (the ownership
marker types, the `Instance` container, the registration builder and the
foreign runtime) are modelled from the specification, as marked on each
definition.
-/

namespace GDNative

/-- Modelled from the spec: the access-capability marker types of the
ownership module (not part of the embedded file). `Unique` means no other
live reference exists; `Shared` means other references may exist;
`ThreadLocal` means the reference came from a context where thread safety
of the object is already guaranteed. -/
inductive AccessTag where
  | Unique
  | Shared
  | ThreadLocal
deriving DecidableEq, Repr

/-- Modelled from the spec: whether a tag proves exclusivity, i.e. that no
other live reference to the same object identity exists. Only `Unique`
does. -/
def AccessTag.isExclusive : AccessTag → Bool
  | .Unique => true
  | _ => false

/-- Modelled from the spec: a typed foreign reference is a non-owning
handle = (object identity, capability tag, borrow lifetime). The tag is a
type-level index with no runtime data; borrow lifetimes are erased in the
embedding. -/
structure TRef (T : Type) (Access : AccessTag) where
  obj : T
deriving DecidableEq, Repr

/-- Modelled from the spec: `TRef::as_ref` (ownership module, outside the
embedded file) yields the bare reference to the same object identity,
dropping the capability tag. -/
def TRef.as_ref {T : Type} {Access : AccessTag} (r : TRef T Access) : T :=
  r.obj

/-- The capability tag carried by a typed foreign reference: the value of
its type-level `Access` index. -/
def TRef.tag {T : Type} {Access : AccessTag} (_ : TRef T Access) : AccessTag :=
  Access

/-- `from_safe_ref` of the `OwnerArg` impl for the bare-reference shape
(class.rs lines 129-138): the impl is generic over every `Access` tag and
the body is `owner.as_ref()`. -/
def bareRef_from_safe_ref {T : Type} {Access : AccessTag}
    (owner : TRef T Access) : T :=
  owner.as_ref

/-- `from_safe_ref` of the `OwnerArg` impl for the typed-reference shape
(class.rs lines 146-155): the impl is generic over every `Access` tag and
the body returns `owner` unchanged. -/
def tref_from_safe_ref {T : Type} {Access : AccessTag}
    (owner : TRef T Access) : TRef T Access :=
  owner

/-- Candidate shapes for the owner argument of an exported method: the
bare reference, the typed foreign reference, or any third type (third
types are represented abstractly by an index, since they carry no impl). -/
inductive ShapeDesc where
  | bareRef
  | tref
  | other (n : Nat)
deriving DecidableEq, Repr

/-- Which shapes implement `private::Sealed`, per the two impl blocks in
class.rs (lines 128 and 140-145): the bare reference and the typed
reference do; the trait is private so no third type can. -/
def sealedImpl : ShapeDesc → Bool
  | .bareRef => true
  | .tref => true
  | .other _ => false

/-- Which shapes implement `OwnerArg` under a given `Access` tag, per the
impl blocks in class.rs: both impls are generic over every `Access`, and
`OwnerArg` requires `private::Sealed`, so no third type implements it. -/
def ownerArgImpl : ShapeDesc → AccessTag → Bool
  | .bareRef, _ => true
  | .tref, _ => true
  | .other _, _ => false

/-- Modelled from the spec: the external registration builder, a
collaborator that records registration calls keyed by name. -/
structure ClassBuilder where
  recordedCalls : List String
deriving DecidableEq, Repr

/-- The `Access` index of the `owner` parameter of `NativeClass::init`
(class.rs line 62: `TRef<..., Self::Base, Shared>`). -/
def initOwnerTag : AccessTag := AccessTag.Shared

/-- Outcome of a call that may abort fatally: either a fatal abort
carrying its message, or a normal result. -/
inductive PanicOr (A : Type) where
  | panicked (msg : String)
  | ok (val : A)
deriving DecidableEq, Repr

/-- A `NativeClass` implementor, described by its trait items: the class
name, the optional override of `init` (`none` means the class keeps the
aborting default body from class.rs lines 61-67), and its
`register_properties` body (`defaultRegisterProperties` when not
overridden). `Base` is the Godot base type, `Payload` is `Self`. -/
structure NativeClass (Base Payload : Type) where
  class_name : String
  initOverride : Option (TRef Base initOwnerTag → Payload)
  registerProperties : ClassBuilder → ClassBuilder

/-- `NativeClass::init` (class.rs lines 61-67): run the override when one
is present; the default body aborts with a message naming the class. -/
def NativeClass.init {Base Payload : Type} (c : NativeClass Base Payload)
    (owner : TRef Base initOwnerTag) : PanicOr Payload :=
  match c.initOverride with
  | some f => .ok (f owner)
  | none => .panicked (c.class_name ++ " does not have a zero-argument constructor")

/-- The default body of `NativeClass::register_properties` (class.rs
lines 69-71): it registers nothing. -/
def defaultRegisterProperties (b : ClassBuilder) : ClassBuilder := b

/-- Modelled from the spec: a foreign-owned object with a stable identity,
supplied by the foreign runtime. -/
structure Obj where
  id : Nat
deriving DecidableEq, Repr

/-- Modelled from the spec: the foreign object runtime as far as this
fragment observes it — a source of freshly allocated base objects,
modelled by a fresh-identity counter. Every identity below `nextId`
belongs to a previously allocated object. -/
structure Runtime where
  nextId : Nat
deriving DecidableEq, Repr

/-- Modelled from the spec: construction of a new foreign base object:
returns a fresh object identity and advances the runtime. -/
def Runtime.alloc (rt : Runtime) : Obj × Runtime :=
  (⟨rt.nextId⟩, ⟨rt.nextId + 1⟩)

/-- Observable events during instance construction, used to record which
constructor paths ran. -/
inductive Event where
  | allocated (id : Nat)
  | initCalled (className : String)
deriving DecidableEq, Repr

/-- Modelled from the spec: the external `Instance` container, an owning
handle over the (foreign base object, payload) pair; `Own` is the
ownership-mode index. -/
structure Instance (Payload : Type) (Own : AccessTag) where
  base : Obj
  payload : Payload
deriving DecidableEq, Repr

/-- Modelled from the spec: `Instance::new` constructs a new foreign base
object and attaches a freshly `init`-ed payload, yielding a uniquely
owned instance. The event list records the paths taken: an allocation,
then an `init` call. -/
def Instance.new {Payload : Type} (c : NativeClass Obj Payload) (rt : Runtime) :
    PanicOr (Instance Payload AccessTag.Unique) × Runtime × List Event :=
  let a := rt.alloc
  match c.init ⟨a.1⟩ with
  | .panicked m => (.panicked m, a.2, [.allocated a.1.id, .initCalled c.class_name])
  | .ok v => (.ok ⟨a.1, v⟩, a.2, [.allocated a.1.id, .initCalled c.class_name])

/-- Modelled from the spec: `Instance::emplace` constructs a new foreign
base object and attaches the caller-supplied payload, skipping `init`
entirely. The event list records only the allocation. -/
def Instance.emplace {Payload : Type} (p : Payload) (rt : Runtime) :
    Instance Payload AccessTag.Unique × Runtime × List Event :=
  let a := rt.alloc
  (⟨a.1, p⟩, a.2, [.allocated a.1.id])

/-- `NativeClass::new_instance` (class.rs lines 82-87): the default body
is `Instance::new()`. -/
def NativeClass.new_instance {Payload : Type} (c : NativeClass Obj Payload)
    (rt : Runtime) :
    PanicOr (Instance Payload AccessTag.Unique) × Runtime × List Event :=
  Instance.new c rt

/-- `NativeClass::emplace` (class.rs lines 98-103): the default body is
`Instance::emplace(self)`, where `self` is the payload. -/
def NativeClass.emplace {Payload : Type} (p : Payload) (rt : Runtime) :
    Instance Payload AccessTag.Unique × Runtime × List Event :=
  Instance.emplace p rt

/-! ## Theorems -/

/-- C1, counterexample: contrary to the claim, the bare-reference shape is
obtainable from the non-exclusive `Shared` tag: the `OwnerArg` impl for
the bare reference covers `Shared`, and `from_safe_ref` on a concrete
`Shared`-tagged reference yields its bare reference — there is no
compile-time rejection keyed on exclusivity. -/
theorem C1_bare_ref_from_shared_counterexample :
    ownerArgImpl ShapeDesc.bareRef AccessTag.Shared = true ∧
    AccessTag.isExclusive AccessTag.Shared = false ∧
    bareRef_from_safe_ref (⟨⟨0⟩⟩ : TRef Obj AccessTag.Shared) = ⟨0⟩ :=
  ⟨rfl, rfl, rfl⟩

/-- C1, amended: the bare-reference owner-argument shape is available
under every capability tag, exclusive or not: the impl is generic over
`Access`, the conversion unconditionally strips the tag via `as_ref`, and
no runtime check exists (the conversion is total, with no failure path). -/
theorem C1_bare_ref_available_for_every_tag (a : AccessTag) (T : Type)
    (r : TRef T a) :
    ownerArgImpl ShapeDesc.bareRef a = true ∧
    bareRef_from_safe_ref r = r.obj := by
  refine ⟨?_, rfl⟩
  cases a <;> rfl

/-- C2: the owner-argument contract is sealed with exactly two shapes:
under every capability tag, a shape implements `OwnerArg` exactly when it
is the bare reference or the typed reference; every implementor is
`Sealed`, and every third shape fails to obtain an impl. -/
theorem C2_owner_arg_sealed_two_shapes (s : ShapeDesc) (a : AccessTag) :
    (ownerArgImpl s a = sealedImpl s) ∧
    (ownerArgImpl s a = true ↔ s = ShapeDesc.bareRef ∨ s = ShapeDesc.tref) ∧
    (∀ n : Nat, ownerArgImpl (ShapeDesc.other n) a = false) := by
  refine ⟨?_, ?_, fun n => rfl⟩
  · cases s <;> rfl
  · cases s <;> simp [ownerArgImpl]

/-- C3: for every class that keeps the default `init`, invoking the
zero-argument construction path aborts fatally with a message that
contains the class's declared name. -/
theorem C3_default_init_aborts_naming_class (Base Payload : Type)
    (c : NativeClass Base Payload) (owner : TRef Base initOwnerTag)
    (h : c.initOverride = none) :
    ∃ pre post : String,
      c.init owner = PanicOr.panicked (pre ++ c.class_name ++ post) := by
  refine ⟨"", " does not have a zero-argument constructor", ?_⟩
  simp [NativeClass.init, h]

/-- C3, witness: a concrete class without an `init` override aborts with
a message containing its declared name. -/
theorem C3_default_init_aborts_naming_class_witness :
    (NativeClass.initOverride
      (⟨"MyClass", none, defaultRegisterProperties⟩ : NativeClass Obj Unit)
        = none) ∧
    ∃ pre post : String,
      NativeClass.init
        (⟨"MyClass", none, defaultRegisterProperties⟩ : NativeClass Obj Unit)
        ⟨⟨0⟩⟩ =
        PanicOr.panicked (pre ++ "MyClass" ++ post) :=
  ⟨rfl,
    C3_default_init_aborts_naming_class Obj Unit
      ⟨"MyClass", none, defaultRegisterProperties⟩ ⟨⟨0⟩⟩ rfl⟩

/-- C4: the capability-gated conversion for the typed-reference shape is
the identity under every capability tag: it returns the input itself,
with the same object identity and the same tag. -/
theorem C4_tref_conversion_is_identity (T : Type) (a : AccessTag)
    (r : TRef T a) :
    tref_from_safe_ref r = r ∧
    (tref_from_safe_ref r).obj = r.obj ∧
    (tref_from_safe_ref r).tag = r.tag :=
  ⟨rfl, rfl, rfl⟩

/-- C5: the capability-gated conversion for the bare-reference shape
strips the tag without changing the observed identity: under every tag it
equals `as_ref` of the input, which is the input's object. -/
theorem C5_bare_ref_conversion_strips_tag (T : Type) (a : AccessTag)
    (r : TRef T a) :
    bareRef_from_safe_ref r = r.as_ref ∧
    bareRef_from_safe_ref r = r.obj :=
  ⟨rfl, rfl⟩

/-- C6, counterexample: contrary to the claim, the `owner` parameter of
`init` carries the `Shared` tag, which does not prove exclusivity. -/
theorem C6_init_owner_tag_counterexample :
    initOwnerTag = AccessTag.Shared ∧
    AccessTag.isExclusive initOwnerTag = false :=
  ⟨rfl, rfl⟩

/-- C6, amended: the constructor `init` receives its owner as a typed
reference carrying the `Shared` capability tag; construction-time
exclusivity is a documented assumption, not encoded in the tag. -/
theorem C6_init_owner_is_shared (Base : Type)
    (owner : TRef Base initOwnerTag) :
    owner.tag = AccessTag.Shared :=
  rfl

/-- C7: for every class with an `init` override, `new_instance` succeeds
with a uniquely owned instance whose payload is the output of `init` on
the fresh base object, whose base identity is the freshly allocated one
(distinct from every previously allocated identity), and the runtime
advances past it. -/
theorem C7_new_instance_fresh_init_payload (Payload : Type)
    (c : NativeClass Obj Payload) (f : TRef Obj initOwnerTag → Payload)
    (rt : Runtime) (h : c.initOverride = some f) :
    ∃ inst : Instance Payload AccessTag.Unique,
      (c.new_instance rt).1 = PanicOr.ok inst ∧
      c.init ⟨⟨rt.nextId⟩⟩ = PanicOr.ok inst.payload ∧
      inst.base.id = rt.nextId ∧
      (c.new_instance rt).2.1.nextId = rt.nextId + 1 ∧
      ∀ j : Nat, j < rt.nextId → inst.base.id ≠ j := by
  refine ⟨⟨⟨rt.nextId⟩, f ⟨⟨rt.nextId⟩⟩⟩, ?_, ?_, rfl, ?_, ?_⟩
  · simp [NativeClass.new_instance, Instance.new, Runtime.alloc,
      NativeClass.init, h]
  · simp [NativeClass.init, h]
  · simp [NativeClass.new_instance, Instance.new, Runtime.alloc,
      NativeClass.init, h]
  · intro j hj
    exact (Nat.ne_of_lt hj).symm

/-- C7, witness: a concrete class whose `init` override returns the owner
identity, run against a runtime that has already allocated identities
0 to 4. -/
theorem C7_new_instance_fresh_init_payload_witness :
    (NativeClass.initOverride
      (⟨"Counted", some (fun r => r.obj.id), defaultRegisterProperties⟩ :
        NativeClass Obj Nat) = some (fun r => r.obj.id)) ∧
    ∃ inst : Instance Nat AccessTag.Unique,
      (NativeClass.new_instance
        (⟨"Counted", some (fun r => r.obj.id), defaultRegisterProperties⟩ :
          NativeClass Obj Nat) ⟨5⟩).1 = PanicOr.ok inst ∧
      NativeClass.init
        (⟨"Counted", some (fun r => r.obj.id), defaultRegisterProperties⟩ :
          NativeClass Obj Nat) ⟨⟨(⟨5⟩ : Runtime).nextId⟩⟩ =
          PanicOr.ok inst.payload ∧
      inst.base.id = (⟨5⟩ : Runtime).nextId ∧
      (NativeClass.new_instance
        (⟨"Counted", some (fun r => r.obj.id), defaultRegisterProperties⟩ :
          NativeClass Obj Nat) ⟨5⟩).2.1.nextId = (⟨5⟩ : Runtime).nextId + 1 ∧
      ∀ j : Nat, j < (⟨5⟩ : Runtime).nextId → inst.base.id ≠ j :=
  ⟨rfl,
    C7_new_instance_fresh_init_payload Nat
      ⟨"Counted", some (fun r => r.obj.id), defaultRegisterProperties⟩
      (fun r => r.obj.id) ⟨5⟩ rfl⟩

/-- C8: `emplace` never invokes the constructor path: its event trace is
exactly one allocation (no `initCalled` event for any class name), it
cannot abort (its result type has no abort case), and it attaches the
caller-supplied payload directly. -/
theorem C8_emplace_skips_init (Payload : Type) (p : Payload) (rt : Runtime)
    (name : String) :
    (NativeClass.emplace p rt).2.2 = [Event.allocated rt.nextId] ∧
    Event.initCalled name ∉ (NativeClass.emplace p rt).2.2 ∧
    (NativeClass.emplace p rt).1.payload = p := by
  refine ⟨rfl, ?_, rfl⟩
  simp [NativeClass.emplace, Instance.emplace, Runtime.alloc]

/-- C9, counterexample: contrary to the universal claim, a class is free
to override `register_properties` with a body that records an entry, and
invoking it twice against the same builder duplicates that entry — the
code enforces idempotence only for the default body. -/
theorem C9_register_twice_counterexample :
    ((⟨"Dup", none, fun b => ⟨"x" :: b.recordedCalls⟩⟩ :
        NativeClass Obj Unit).registerProperties
      ((⟨"Dup", none, fun b => ⟨"x" :: b.recordedCalls⟩⟩ :
        NativeClass Obj Unit).registerProperties ⟨[]⟩)).recordedCalls =
      ["x", "x"] ∧
    List.count "x" ["x", "x"] = 2 :=
  ⟨rfl, rfl⟩

/-- C9, amended: the default `register_properties` performs no
registration at all, so for every class that keeps the default, invoking
it twice equals invoking it once and the builder's recorded calls are
unchanged (idempotence holds for the default; for overrides it is a
documented contract, not enforced by this code). -/
theorem C9_default_register_properties_idempotent (Base Payload : Type)
    (c : NativeClass Base Payload) (b : ClassBuilder)
    (h : c.registerProperties = defaultRegisterProperties) :
    c.registerProperties (c.registerProperties b) = c.registerProperties b ∧
    (c.registerProperties b).recordedCalls = b.recordedCalls := by
  simp [h, defaultRegisterProperties]

/-- C9, witness: a concrete class keeping the default body, applied twice
to a builder that already holds one recorded call. -/
theorem C9_default_register_properties_idempotent_witness :
    (NativeClass.registerProperties
      (⟨"Plain", none, defaultRegisterProperties⟩ : NativeClass Obj Unit) =
        defaultRegisterProperties) ∧
    (NativeClass.registerProperties
      (⟨"Plain", none, defaultRegisterProperties⟩ : NativeClass Obj Unit)
      (NativeClass.registerProperties
        (⟨"Plain", none, defaultRegisterProperties⟩ : NativeClass Obj Unit)
        ⟨["p"]⟩) =
      NativeClass.registerProperties
        (⟨"Plain", none, defaultRegisterProperties⟩ : NativeClass Obj Unit)
        ⟨["p"]⟩ ∧
    (NativeClass.registerProperties
      (⟨"Plain", none, defaultRegisterProperties⟩ : NativeClass Obj Unit)
      ⟨["p"]⟩).recordedCalls = ["p"]) :=
  ⟨rfl,
    C9_default_register_properties_idempotent Obj Unit
      ⟨"Plain", none, defaultRegisterProperties⟩ ⟨["p"]⟩ rfl⟩

/-- C10: the convenience constructors are pure delegations: the default
body of `new_instance` equals `Instance.new` and the default body of
`emplace` equals `Instance.emplace`, at every class, payload and runtime
state. -/
theorem C10_constructors_delegate (Payload : Type)
    (c : NativeClass Obj Payload) (p : Payload) (rt : Runtime) :
    c.new_instance rt = Instance.new c rt ∧
    NativeClass.emplace p rt = Instance.emplace p rt :=
  ⟨rfl, rfl⟩

end GDNative
